import Mathlib

/-!
Verification of the error-reporting layer of the rustbreak library
(`src/error.rs`).  The file embeds the data model (`RustbreakErrorKind`,
the `failure`-style `Context`, `RustbreakError`) and proves the spec's
testable properties about it.

The `failure` crate is an external dependency of the repository; its
`Context` type, the generic failure capability and the dynamically typed
error box are therefore modelled from the spec (sections 2, 4.2, 6 and 9),
as marked on each definition.
-/

namespace Rustbreak

/-- The five kinds of errors, from `RustbreakErrorKind` in `src/error.rs`.
The enum carries no payload; Rust derives `Copy, Clone, Eq, PartialEq`. -/
inductive RustbreakErrorKind where
  | Serialization
  | Deserialization
  | Poison
  | Backend
  | WritePanic
deriving DecidableEq, Repr

/-- Structural equality on the kind, mirroring Rust's
`derive(PartialEq)`: same variant compares `true`, distinct variants
compare `false`. -/
def RustbreakErrorKind.beq : RustbreakErrorKind → RustbreakErrorKind → Bool
  | .Serialization, .Serialization => true
  | .Deserialization, .Deserialization => true
  | .Poison, .Poison => true
  | .Backend, .Backend => true
  | .WritePanic, .WritePanic => true
  | _, _ => false

/-- Rust's `derive(Copy, Clone)` on a payload-free enum: a copy is a
fresh value equal to the source and sharing no state with it. -/
def RustbreakErrorKind.copy (k : RustbreakErrorKind) : RustbreakErrorKind := k

/-- The per-variant display message, from the `#[fail(display = ...)]`
attributes on `RustbreakErrorKind` in `src/error.rs`.  Note the source
spells the `WritePanic` message "paniced". -/
def RustbreakErrorKind.display : RustbreakErrorKind → String
  | .Serialization => "Could not serialize the value"
  | .Deserialization => "Could not deserialize the value"
  | .Poison => "The database has been poisoned"
  | .Backend => "The backend has encountered an error"
  | .WritePanic => "The write operation paniced but got caught"

/-- Modelled from the spec: the generic "reports failures" capability
(`dyn Fail` of the external `failure` crate, section 6 of the spec) —
minimally a display message and, optionally, its own cause, forming a
backward-only chain. -/
inductive Failure where
  | mk (message : String) (cause : Option Failure)

/-- The display message of a generic failure. -/
def Failure.message : Failure → String
  | .mk m _ => m

/-- The immediate cause of a generic failure, if any. -/
def Failure.cause : Failure → Option Failure
  | .mk _ c => c

/-- Modelled from the spec: the diagnostic trace optionally captured at
construction time (`failure::Backtrace`, external crate; spec section
4.2). -/
structure Backtrace where
  frames : List String
deriving DecidableEq, Repr

/-- Modelled from the spec: `failure::Context` (external crate; spec
sections 2 and 4.2) — an immutable bundle holding exactly one kind by
value, at most one direct cause, and an optional trace captured at
construction. -/
structure Context (D : Type) where
  context : D
  cause : Option Failure
  backtrace : Option Backtrace

/-- Modelled from the spec: construction path (a) of section 4.2 — a
`Context` built from a bare kind has an empty cause.  `captured` is the
trace the platform captured at construction time (absent on platforms
without capture support). -/
def Context.new {D : Type} (captured : Option Backtrace) (d : D) : Context D :=
  { context := d, cause := none, backtrace := captured }

/-- Modelled from the spec: construction path (b) of section 4.2 — a
`Context` built from a kind plus an explicit underlying cause retains
that cause. -/
def Context.withCause {D : Type} (captured : Option Backtrace) (d : D)
    (f : Failure) : Context D :=
  { context := d, cause := some f, backtrace := captured }

/-- The stored tag of a `Context` (`Context::get_context` of the
`failure` crate; modelled from spec section 4.2, accessor `kind()`). -/
def Context.get_context {D : Type} (c : Context D) : D := c.context

/-- Modelled from the spec (section 4.3): displaying a `Context`
delegates to the kind's default message; the cause chain is never
printed by default. -/
def Context.display {D : Type} (dispD : D → String) (c : Context D) : String :=
  dispD c.context

/-- The main error type from `src/error.rs`: a struct owning a
`Context<RustbreakErrorKind>`. -/
structure RustbreakError where
  inner : Context RustbreakErrorKind

/-- `Fail::cause` for `RustbreakError` in `src/error.rs`: delegates to
`self.inner.cause()`. -/
def RustbreakError.cause (e : RustbreakError) : Option Failure :=
  e.inner.cause

/-- `Fail::backtrace` for `RustbreakError` in `src/error.rs`: delegates
to `self.inner.backtrace()`. -/
def RustbreakError.backtrace (e : RustbreakError) : Option Backtrace :=
  e.inner.backtrace

/-- `Display` for `RustbreakError` in `src/error.rs`: delegates to the
display of the inner `Context`. -/
def RustbreakError.display (e : RustbreakError) : String :=
  Context.display RustbreakErrorKind.display e.inner

/-- `RustbreakError::kind` in `src/error.rs`: copies the kind out of the
inner `Context` (`*self.inner.get_context()`). -/
def RustbreakError.kind (e : RustbreakError) : RustbreakErrorKind :=
  e.inner.get_context

/-- `impl From<RustbreakErrorKind> for RustbreakError` in
`src/error.rs`: wraps the bare kind into a fresh `Context::new(kind)`. -/
def RustbreakError.from_kind (captured : Option Backtrace)
    (k : RustbreakErrorKind) : RustbreakError :=
  { inner := Context.new captured k }

/-- `impl From<Context<RustbreakErrorKind>> for RustbreakError` in
`src/error.rs`: stores the given `Context` unchanged. -/
def RustbreakError.from_context (c : Context RustbreakErrorKind) : RustbreakError :=
  { inner := c }

/-- Modelled from the spec: the generic dynamically-typed error object
(`Box<dyn Any>` of section 6's boxing/downcast contract), a type-tagged
box from which the concrete type is recovered by a checked downcast. -/
inductive AnyBox where
  | rustbreakError (e : RustbreakError)
  | rustbreakErrorKind (k : RustbreakErrorKind)
  | other (message : String)

/-- Modelled from the spec: checked downcast of the dynamically typed
box back to the concrete `RustbreakError` type. -/
def AnyBox.downcast_error : AnyBox → Option RustbreakError
  | .rustbreakError e => some e
  | _ => none

/-- C1: for every one of the five kinds `k` and whatever trace the
platform captures, `RustbreakError::from(k).kind() = k`. -/
theorem from_kind_kind_eq (captured : Option Backtrace)
    (k : RustbreakErrorKind) :
    (RustbreakError.from_kind captured k).kind = k := rfl

/-- C2 counterexample: the claim's message table says the `WritePanic`
display text is "The write operation panicked but got caught", but the
source spells it "paniced", so the displayed text differs from the
table. -/
theorem write_panic_display_ne_spec_table :
    (RustbreakError.from_kind none RustbreakErrorKind.WritePanic).display ≠
      "The write operation panicked but got caught" := by
  decide

/-- C2 amended: for every kind, the display of `Error::from(k)` is the
fixed message of the source's table, whose `WritePanic` entry reads
"The write operation paniced but got caught" (spelled "paniced"). -/
theorem display_message_table (captured : Option Backtrace) :
    (RustbreakError.from_kind captured RustbreakErrorKind.Serialization).display =
        "Could not serialize the value" ∧
      (RustbreakError.from_kind captured RustbreakErrorKind.Deserialization).display =
        "Could not deserialize the value" ∧
      (RustbreakError.from_kind captured RustbreakErrorKind.Poison).display =
        "The database has been poisoned" ∧
      (RustbreakError.from_kind captured RustbreakErrorKind.Backend).display =
        "The backend has encountered an error" ∧
      (RustbreakError.from_kind captured RustbreakErrorKind.WritePanic).display =
        "The write operation paniced but got caught" :=
  ⟨rfl, rfl, rfl, rfl, rfl⟩

/-- C3: wrapping any underlying failure `f` under any kind `k` (a
`Context` carrying `k` with `f` as cause, converted to an error) gives
an error whose cause is present and whose kind is still `k`. -/
theorem wrap_cause_present_kind_kept (captured : Option Backtrace)
    (k : RustbreakErrorKind) (f : Failure) :
    (RustbreakError.from_context (Context.withCause captured k f)).cause.isSome = true ∧
      (RustbreakError.from_context (Context.withCause captured k f)).kind = k :=
  ⟨rfl, rfl⟩

/-- C4: an error constructed directly from a bare kind has no cause. -/
theorem from_kind_cause_none (captured : Option Backtrace)
    (k : RustbreakErrorKind) :
    (RustbreakError.from_kind captured k).cause = none := rfl

/-- C5: boxing an error built from any kind `k` as a dynamically typed
error object and downcasting it back succeeds, and the recovered
error's kind is still `k`. -/
theorem downcast_round_trip_kind (captured : Option Backtrace)
    (k : RustbreakErrorKind) :
    (AnyBox.downcast_error
        (AnyBox.rustbreakError (RustbreakError.from_kind captured k))).map
      RustbreakError.kind = some k := rfl

/-- C6: converting a pre-built `Context` into an error preserves its
kind, cause and backtrace exactly. -/
theorem from_context_preserves_all (c : Context RustbreakErrorKind) :
    (RustbreakError.from_context c).kind = c.get_context ∧
      (RustbreakError.from_context c).cause = c.cause ∧
      (RustbreakError.from_context c).backtrace = c.backtrace :=
  ⟨rfl, rfl, rfl⟩

/-- C7: for every error, including one carrying a cause chain, the
display output is exactly the kind's short message — the same text as
displaying a bare-kind error — and never includes the cause chain. -/
theorem display_is_kind_message_only (e : RustbreakError) :
    e.display = RustbreakErrorKind.display e.kind ∧
      e.display = (RustbreakError.from_kind none e.kind).display :=
  ⟨rfl, rfl⟩

/-- C8: a copy of any kind variant is a fresh value equal to its source
(two independently constructed copies of the same variant compare
equal); the model's kinds are pure payload-free values, so a copy shares
no mutable state with its source by construction. -/
theorem copy_eq_and_self_beq (k : RustbreakErrorKind) :
    RustbreakErrorKind.copy k = k ∧ RustbreakErrorKind.beq k k = true :=
  ⟨rfl, by cases k <;> rfl⟩

/-- C9: the two construction paths agree on cause-free input: for every
kind `k`, converting a fresh `Context::new(k)` yields an error with the
same kind as converting `k` directly, and both errors have no cause. -/
theorem construction_paths_agree (captured : Option Backtrace)
    (k : RustbreakErrorKind) :
    (RustbreakError.from_context (Context.new captured k)).kind =
        (RustbreakError.from_kind captured k).kind ∧
      (RustbreakError.from_context (Context.new captured k)).cause = none ∧
      (RustbreakError.from_kind captured k).cause = none :=
  ⟨rfl, rfl, rfl⟩

/-- C10: equality on the kind is exactly structural identity of the
variant — two kinds compare equal iff they are the same variant, so any
two distinct variants compare unequal. -/
theorem beq_eq_true_iff_eq (a b : RustbreakErrorKind) :
    RustbreakErrorKind.beq a b = true ↔ a = b := by
  cases a <;> cases b <;> simp [RustbreakErrorKind.beq]

end Rustbreak
